import Mathlib

/-!
Verification of the redisraft core (`src/raft.c`) against its specification.

The C code is shallowly embedded: byte buffers are `List Nat` (each element a
byte value), host `size_t` fields are 8-byte little-endian words (the build
refuses big-endian hosts, and the host is 64-bit), and the external Raft
algorithm library and Redis module API appear as abstract parameters (success
flags, node registries as lists) around the control flow that `raft.c` itself
contains.
-/

namespace RedisRaft

/-! ## Command codec (`RaftRedisCommandSerialize` / `RaftRedisCommandDeserialize`) -/

/-- Value of `sizeof(size_t)` on the host: 8 bytes (64-bit, little-endian per the
    `#if __BYTE_ORDER != __LITTLE_ENDIAN #error` guard). -/
def sizeofSizeT : Nat := 8

/-- Little-endian byte encoding of `n` into exactly `k` bytes
    (models `*(size_t *)p = n` for `k = 8`). -/
def leBytes : Nat → Nat → List Nat
  | 0, _ => []
  | k + 1, n => n % 256 :: leBytes k (n / 256)

/-- Read a little-endian word from a byte list
    (models `*(size_t *)p` on an 8-byte slice). -/
def fromLeBytes : List Nat → Nat
  | [] => 0
  | b :: bs => b + 256 * fromLeBytes bs

/-- The size computation loop of `RaftRedisCommandSerialize`:
    `sz = sizeof(size_t) * (argc + 1)` plus the length of every argument. -/
def serializeSize (argv : List (List Nat)) : Nat :=
  argv.foldl (fun sz s => sz + s.length) (sizeofSizeT * (argv.length + 1))

/-- The argument-writing loop of `RaftRedisCommandSerialize`: for each
    argument, write its length as a `size_t` then its bytes. -/
def writeArgs : List (List Nat) → List Nat
  | [] => []
  | s :: rest => leBytes sizeofSizeT s.length ++ s ++ writeArgs rest

/-- Model of `RaftRedisCommandSerialize`: the produced buffer is `argc` as a native
    word followed by each argument's length and bytes. -/
def RaftRedisCommandSerialize (argv : List (List Nat)) : List Nat :=
  leBytes sizeofSizeT argv.length ++ writeArgs argv

/-- The deserialization loop of `RaftRedisCommandDeserialize`: read `argc`
    (length, bytes) pairs, trusting each embedded length. Reads past the end
    of the buffer yield the available suffix (the C code would read out of
    bounds; well-formed buffers never reach that case). -/
def readArgs : Nat → List Nat → List (List Nat)
  | 0, _ => []
  | k + 1, buf =>
      let len := fromLeBytes (buf.take sizeofSizeT)
      let rest := buf.drop sizeofSizeT
      rest.take len :: readArgs k (rest.drop len)

/-- Model of `RaftRedisCommandDeserialize`: read `argc` from the head of the buffer,
    then the arguments; unconditionally `return true`. -/
def RaftRedisCommandDeserialize (buf : List Nat) : Bool × List (List Nat) :=
  (true, readArgs (fromLeBytes (buf.take sizeofSizeT)) (buf.drop sizeofSizeT))

/-! ### Codec lemmas -/

theorem leBytes_length (k n : Nat) : (leBytes k n).length = k := by
  induction k generalizing n with
  | zero => rfl
  | succ k ih => simp [leBytes, ih]

theorem fromLeBytes_leBytes (k n : Nat) :
    fromLeBytes (leBytes k n) = n % 256 ^ k := by
  induction k generalizing n with
  | zero => simp [leBytes, fromLeBytes, Nat.mod_one]
  | succ k ih =>
      simp only [leBytes, fromLeBytes, ih]
      rw [pow_succ, mul_comm ((256:Nat) ^ k) 256]
      rw [← Nat.mod_mul_right_div_self n 256 (256 ^ k)]
      rw [← Nat.mod_mod_of_dvd n (dvd_mul_right 256 (256 ^ k))]
      exact Nat.mod_add_div _ 256

theorem fromLeBytes_leBytes_of_lt {k n : Nat} (h : n < 256 ^ k) :
    fromLeBytes (leBytes k n) = n := by
  rw [fromLeBytes_leBytes, Nat.mod_eq_of_lt h]

theorem readArgs_writeArgs (argv : List (List Nat))
    (h : ∀ s ∈ argv, s.length < 2 ^ 64) (tail : List Nat) :
    readArgs argv.length (writeArgs argv ++ tail) = argv := by
  induction argv with
  | nil => rfl
  | cons s rest ih =>
      have hs : s.length < 256 ^ sizeofSizeT := by
        have := h s (by simp)
        simpa [sizeofSizeT] using this
      have hlen : (leBytes sizeofSizeT s.length).length = sizeofSizeT :=
        leBytes_length _ _
      simp only [writeArgs, List.length_cons, readArgs, List.append_assoc]
      rw [List.take_left' hlen, List.drop_left' hlen,
          fromLeBytes_leBytes_of_lt hs]
      rw [List.take_left' (rfl : s.length = s.length),
          List.drop_left' (rfl : s.length = s.length)]
      exact congrArg (s :: ·) (ih (fun t ht => h t (by simp [ht])))

theorem writeArgs_length (argv : List (List Nat)) :
    (writeArgs argv).length =
      sizeofSizeT * argv.length + (argv.map List.length).sum := by
  induction argv with
  | nil => rfl
  | cons s rest ih =>
      simp only [writeArgs, List.length_append, leBytes_length, ih,
        List.map_cons, List.sum_cons, List.length_cons]
      ring

theorem serializeSize_eq (argv : List (List Nat)) :
    serializeSize argv =
      sizeofSizeT * (argv.length + 1) + (argv.map List.length).sum := by
  have key : ∀ (init : Nat),
      argv.foldl (fun sz s => sz + s.length) init =
        init + (argv.map List.length).sum := by
    intro init
    induction argv generalizing init with
    | nil => simp
    | cons s rest ih => simp [List.foldl_cons, ih, List.sum_cons]; ring
  simpa [serializeSize] using key (sizeofSizeT * (argv.length + 1))

/-- C1: deserializing a serialized command recovers `argc` and every argument
    byte-for-byte, provided `argc` and each argument length fit in the native
    64-bit `size_t` fields (always true in the C code, where `argc` is an
    `int` and each length is a `size_t`). -/
theorem serialize_deserialize_roundtrip (argv : List (List Nat))
    (hargc : argv.length < 2 ^ 64) (hlen : ∀ s ∈ argv, s.length < 2 ^ 64) :
    RaftRedisCommandDeserialize (RaftRedisCommandSerialize argv) =
      (true, argv) := by
  have hargc' : argv.length < 256 ^ sizeofSizeT := by
    simpa [sizeofSizeT] using hargc
  have hlen8 : (leBytes sizeofSizeT argv.length).length = sizeofSizeT :=
    leBytes_length _ _
  unfold RaftRedisCommandDeserialize RaftRedisCommandSerialize
  rw [List.take_left' hlen8, List.drop_left' hlen8,
      fromLeBytes_leBytes_of_lt hargc']
  have := readArgs_writeArgs argv hlen []
  rw [List.append_nil] at this
  rw [this]

/-- Witness for C1 at the concrete command `["SET", "k", "v"]`
    (bytes of those strings). -/
theorem serialize_deserialize_roundtrip_witness :
    RaftRedisCommandDeserialize
        (RaftRedisCommandSerialize [[83, 69, 84], [107], [118]]) =
      (true, [[83, 69, 84], [107], [118]]) :=
  serialize_deserialize_roundtrip [[83, 69, 84], [107], [118]]
    (by decide) (by decide)

/-- C9: the serialized buffer is exactly `argc` as a native word followed by
    `(len_i, bytes_i)` pairs, and its total length is
    `sizeof(size_t) * (argc + 1)` plus the sum of the argument lengths —
    which is also the size `sz` the C code computes and allocates. -/
theorem serialize_layout (argv : List (List Nat)) :
    RaftRedisCommandSerialize argv =
        leBytes sizeofSizeT argv.length ++
          (argv.map (fun s => leBytes sizeofSizeT s.length ++ s)).flatten ∧
      (RaftRedisCommandSerialize argv).length = serializeSize argv ∧
      serializeSize argv =
        sizeofSizeT * (argv.length + 1) + (argv.map List.length).sum := by
  refine ⟨?_, ?_, serializeSize_eq argv⟩
  · unfold RaftRedisCommandSerialize
    refine congrArg (leBytes sizeofSizeT argv.length ++ ·) ?_
    induction argv with
    | nil => rfl
    | cons s rest ih => simp [writeArgs, ih]
  · unfold RaftRedisCommandSerialize
    rw [List.length_append, leBytes_length, writeArgs_length,
        serializeSize_eq]
    ring

/-- C10: `RaftRedisCommandDeserialize` returns `true` on every input buffer;
    the embedded `argc` and length fields are trusted unconditionally and no
    malformed or truncated payload is ever reported to the caller. -/
theorem deserialize_always_true (buf : List Nat) :
    (RaftRedisCommandDeserialize buf).1 = true := rfl

/-! ## Raft entries and the callback surface -/

/-- The entry types of the algorithm library used by `raft.c`. -/
inductive EntryType where
  | normal
  | addNonvotingNode
  | addNode
  | removeNode
  deriving DecidableEq, Repr

/-- Peer address (`node_addr` / `NodeAddr`). -/
structure NodeAddr where
  host : String
  port : Nat
  deriving DecidableEq, Repr

/-- Record `RaftCfgChange`: the fixed `{id, addr}` record stored in a cfg-change
    entry's data. -/
structure RaftCfgChange where
  id : Int
  addr : NodeAddr
  deriving DecidableEq, Repr

/-- An entry's `data` buffer, viewed at the two types `raft.c` casts it to:
    an opaque serialized command, or a `RaftCfgChange` record. -/
inductive EntryData where
  | bytes (buf : List Nat)
  | cfgChange (c : RaftCfgChange)
  deriving DecidableEq, Repr

/-- The `(RaftCfgChange *) entry->data.buf` cast. Applying it to a buffer
    that does not hold a cfg record is undefined behaviour in C; the model
    returns an arbitrary record in that case. -/
def castCfgChange : EntryData → RaftCfgChange
  | .cfgChange c => c
  | .bytes _ => ⟨0, ⟨"", 0⟩⟩

/-- A Raft entry as handed to the callbacks. `user_data_req` records whether
    `user_data` carries an originating request. -/
structure RaftEntry where
  term : Int
  id : Int
  type : EntryType
  data : EntryData
  user_data_req : Bool
  deriving DecidableEq, Repr

/-- Predicate `raft_entry_is_cfg_change` from the algorithm library: every type other
    than `NORMAL` used here is a membership change. -/
def raft_entry_is_cfg_change (e : RaftEntry) : Bool :=
  e.type != EntryType.normal

/-- The log file header: `term`, `vote`, `commit_idx`. -/
structure RaftLogHeader where
  term : Int
  vote : Int
  commit_idx : Int
  deriving DecidableEq, Repr

/-- The algorithm library's shutdown sentinel `RAFT_ERR_SHUTDOWN`
    (any fixed nonzero error code; the library defines it as -4). -/
def RAFT_ERR_SHUTDOWN : Int := -4

/-- Model of `raftPersistVote`: store the vote in the in-memory header, then persist
    via `RaftLogUpdate` (modelled by the `updateOk` outcome); a failed update
    yields the shutdown sentinel, success yields 0. Returns the return code
    and the header as left by the callback. -/
def raftPersistVote (updateOk : Bool) (hdr : RaftLogHeader) (vote : Int) :
    Int × RaftLogHeader :=
  let hdr' := { hdr with vote := vote }
  if updateOk then (0, hdr') else (RAFT_ERR_SHUTDOWN, hdr')

/-- Model of `raftPersistTerm`: store the term in the in-memory header, then persist
    via `RaftLogUpdate`; a failed update yields the shutdown sentinel.
    (The `vote` argument is not written by this callback.) -/
def raftPersistTerm (updateOk : Bool) (hdr : RaftLogHeader)
    (term : Int) (_vote : Int) : Int × RaftLogHeader :=
  let hdr' := { hdr with term := term }
  if updateOk then (0, hdr') else (RAFT_ERR_SHUTDOWN, hdr')

/-- Outcome of `raftApplyLog`: return code, resulting header `commit_idx`,
    and the data of the command handed to `executeLogEntry`, if any. -/
structure ApplyResult where
  ret : Int
  commit_idx : Int
  executed : Option EntryData
  deriving DecidableEq, Repr

/-- Model of `raftApplyLog`: advance the persisted `commit_idx` when the applied
    index is greater; then dispatch on the entry type — `NORMAL` runs the
    command through `executeLogEntry`, `REMOVE_NODE` of the local id returns
    the shutdown sentinel, everything else is a no-op returning 0. -/
def raftApplyLog (selfId : Int) (commit_idx : Int) (entry : RaftEntry)
    (entry_idx : Int) : ApplyResult :=
  let ci := if entry_idx > commit_idx then entry_idx else commit_idx
  match entry.type with
  | .removeNode =>
      if (castCfgChange entry.data).id = selfId then
        ⟨RAFT_ERR_SHUTDOWN, ci, none⟩
      else
        ⟨0, ci, none⟩
  | .normal => ⟨0, ci, some entry.data⟩
  | _ => ⟨0, ci, none⟩

/-- C3: `raftApplyLog` advances the stored `commit_idx` exactly when the
    applied index is greater; a `NORMAL` entry (and only a `NORMAL` entry)
    is executed through the interpreter; the shutdown sentinel is returned
    exactly for a `REMOVE_NODE` entry whose id is the local node id; every
    other type returns 0 with no effect. -/
theorem raftApplyLog_spec (selfId commit_idx : Int) (entry : RaftEntry)
    (entry_idx : Int) :
    (raftApplyLog selfId commit_idx entry entry_idx).commit_idx =
        (if entry_idx > commit_idx then entry_idx else commit_idx) ∧
      ((raftApplyLog selfId commit_idx entry entry_idx).executed =
          some entry.data ↔ entry.type = EntryType.normal) ∧
      ((raftApplyLog selfId commit_idx entry entry_idx).ret =
          RAFT_ERR_SHUTDOWN ↔
        (entry.type = EntryType.removeNode ∧
          (castCfgChange entry.data).id = selfId)) ∧
      ((raftApplyLog selfId commit_idx entry entry_idx).ret = 0 ∨
        (raftApplyLog selfId commit_idx entry entry_idx).ret =
          RAFT_ERR_SHUTDOWN) := by
  unfold raftApplyLog
  rcases entry with ⟨t, i, ty, d, u⟩
  by_cases h : (castCfgChange d).id = selfId <;>
    cases ty <;> simp [RAFT_ERR_SHUTDOWN, h]

/-- C6: both persistence callbacks write the given value into the header
    field; they return the shutdown sentinel exactly when the header update
    fails, and 0 with the field set otherwise. -/
theorem raftPersist_spec (updateOk : Bool) (hdr : RaftLogHeader)
    (vote term tvote : Int) :
    (raftPersistVote updateOk hdr vote).2.vote = vote ∧
      (raftPersistTerm updateOk hdr term tvote).2.term = term ∧
      (raftPersistVote updateOk hdr vote).1 =
        (if updateOk then 0 else RAFT_ERR_SHUTDOWN) ∧
      (raftPersistTerm updateOk hdr term tvote).1 =
        (if updateOk then 0 else RAFT_ERR_SHUTDOWN) := by
  cases updateOk <;> simp [raftPersistVote, raftPersistTerm]

/-! ## `raftLogOffer` and the node registry -/

/-- A node in the algorithm library's registry, as `raft.c` configures it:
    identity, voting status, the `is_self` flag, and the `udata` `Node`
    created by `NodeInit` (absent for the bootstrap self node, whose udata
    is NULL). -/
structure RegNode where
  id : Int
  voting : Bool
  is_self : Bool
  addr : Option NodeAddr
  deriving DecidableEq, Repr

/-- Outcome of `raftLogOffer`: return code, persistent log, registry. -/
structure OfferResult where
  ret : Int
  log : List RaftEntry
  registry : List RegNode
  deriving DecidableEq, Repr

/-- Model of `raftLogOffer`: append the entry to the persistent log
    (`RaftLogAppend`, whose success is the `appendOk` outcome; failure
    returns the shutdown sentinel), then, for cfg-change entries only,
    mutate the registry: `REMOVE_NODE` removes the node carrying the
    payload's id (`raft_remove_node`; the code asserts that it exists);
    `ADD_NODE` / `ADD_NONVOTING_NODE` builds a `Node` from the payload via
    `NodeInit` and registers it voting resp. non-voting, with `is_self` set
    exactly when the payload id equals the local node id. -/
def raftLogOffer (appendOk : Bool) (selfId : Int) (log : List RaftEntry)
    (registry : List RegNode) (entry : RaftEntry) (_entry_idx : Int) :
    OfferResult :=
  if !appendOk then ⟨RAFT_ERR_SHUTDOWN, log, registry⟩
  else
    let log' := log ++ [entry]
    if !raft_entry_is_cfg_change entry then ⟨0, log', registry⟩
    else
      let req := castCfgChange entry.data
      match entry.type with
      | .removeNode => ⟨0, log', registry.filter (fun n => !(n.id == req.id))⟩
      | .addNode =>
          ⟨0, log', registry ++ [⟨req.id, true, req.id == selfId, some req.addr⟩]⟩
      | .addNonvotingNode =>
          ⟨0, log', registry ++ [⟨req.id, false, req.id == selfId, some req.addr⟩]⟩
      | .normal => ⟨0, log', registry⟩

/-- C4: `raftLogOffer` returns the shutdown sentinel (leaving everything
    unchanged) when the append fails; on success it appends the entry to the
    log and mutates the registry exactly for cfg-change entries —
    `REMOVE_NODE` drops the node with the payload id, the two add types
    register a node with the payload's id and address, voting resp.
    non-voting, whose `is_self` flag is set iff the id is the local id;
    a non-cfg-change (`NORMAL`) entry leaves the registry unchanged. -/
theorem raftLogOffer_spec (appendOk : Bool) (selfId : Int)
    (log : List RaftEntry) (registry : List RegNode) (entry : RaftEntry)
    (entry_idx : Int) :
    (appendOk = false →
      raftLogOffer appendOk selfId log registry entry entry_idx =
        ⟨RAFT_ERR_SHUTDOWN, log, registry⟩) ∧
    (appendOk = true →
      (raftLogOffer appendOk selfId log registry entry entry_idx).ret = 0 ∧
      (raftLogOffer appendOk selfId log registry entry entry_idx).log =
        log ++ [entry]) ∧
    (appendOk = true → entry.type = EntryType.normal →
      (raftLogOffer appendOk selfId log registry entry entry_idx).registry =
        registry) ∧
    (appendOk = true → entry.type = EntryType.removeNode →
      (raftLogOffer appendOk selfId log registry entry entry_idx).registry =
        registry.filter
          (fun n => !(n.id == (castCfgChange entry.data).id))) ∧
    (appendOk = true → entry.type = EntryType.addNode →
      (raftLogOffer appendOk selfId log registry entry entry_idx).registry =
        registry ++ [⟨(castCfgChange entry.data).id, true,
          (castCfgChange entry.data).id == selfId,
          some (castCfgChange entry.data).addr⟩]) ∧
    (appendOk = true → entry.type = EntryType.addNonvotingNode →
      (raftLogOffer appendOk selfId log registry entry entry_idx).registry =
        registry ++ [⟨(castCfgChange entry.data).id, false,
          (castCfgChange entry.data).id == selfId,
          some (castCfgChange entry.data).addr⟩]) := by
  rcases entry with ⟨t, i, ty, d, u⟩
  cases appendOk <;> cases ty <;>
    simp [raftLogOffer, raft_entry_is_cfg_change]

/-- Witness for C4, covering the failed append, a `NORMAL` entry, and each
    cfg-change type at concrete inputs. -/
theorem raftLogOffer_spec_witness :
    (raftLogOffer false 1 [] [] ⟨3, 9, .normal, .bytes [7], false⟩ 1 =
        ⟨RAFT_ERR_SHUTDOWN, [], []⟩) ∧
      (raftLogOffer true 1 [] [⟨2, true, false, none⟩]
          ⟨3, 9, .normal, .bytes [7], false⟩ 1).registry =
        [⟨2, true, false, none⟩] ∧
      (raftLogOffer true 1 []
          [⟨1, true, true, none⟩, ⟨2, true, false, some ⟨"h", 7⟩⟩]
          ⟨3, 9, .removeNode, .cfgChange ⟨2, ⟨"h", 7⟩⟩, false⟩ 1).registry =
        [⟨1, true, true, none⟩] ∧
      (raftLogOffer true 1 [] [⟨1, true, true, none⟩]
          ⟨3, 9, .addNode, .cfgChange ⟨2, ⟨"h", 7⟩⟩, false⟩ 1).registry =
        [⟨1, true, true, none⟩, ⟨2, true, false, some ⟨"h", 7⟩⟩] ∧
      (raftLogOffer true 1 [] [⟨1, true, true, none⟩]
          ⟨3, 9, .addNonvotingNode, .cfgChange ⟨2, ⟨"h", 7⟩⟩, false⟩ 1).registry =
        [⟨1, true, true, none⟩, ⟨2, false, false, some ⟨"h", 7⟩⟩] := by
  refine ⟨(raftLogOffer_spec false 1 [] []
      ⟨3, 9, .normal, .bytes [7], false⟩ 1).1 rfl, ?_, ?_, ?_, ?_⟩
  · exact ((raftLogOffer_spec true 1 [] [⟨2, true, false, none⟩]
      ⟨3, 9, .normal, .bytes [7], false⟩ 1).2.2.1 rfl rfl).trans (by decide)
  · exact ((raftLogOffer_spec true 1
      [] [⟨1, true, true, none⟩, ⟨2, true, false, some ⟨"h", 7⟩⟩]
      ⟨3, 9, .removeNode, .cfgChange ⟨2, ⟨"h", 7⟩⟩, false⟩ 1).2.2.2.1
      rfl rfl).trans (by decide)
  · exact ((raftLogOffer_spec true 1 [] [⟨1, true, true, none⟩]
      ⟨3, 9, .addNode, .cfgChange ⟨2, ⟨"h", 7⟩⟩, false⟩ 1).2.2.2.2.1
      rfl rfl).trans (by decide)
  · exact ((raftLogOffer_spec true 1 [] [⟨1, true, true, none⟩]
      ⟨3, 9, .addNonvotingNode, .cfgChange ⟨2, ⟨"h", 7⟩⟩, false⟩
      1).2.2.2.2.2 rfl rfl).trans (by decide)

/-! ## `handleRedisCommand` -/

/-- A client request (`RaftReq`) as `handleRedisCommand` sees it: the argv
    of the Redis command and the `RR_PENDING_COMMIT` flag. -/
structure RaftReq where
  cmd : List (List Nat)
  pending_commit : Bool
  deriving DecidableEq, Repr

/-- A reply sent on the request's context: an error
    (`RedisModule_ReplyWithError`) or a simple status string
    (`RedisModule_ReplyWithSimpleString`). -/
inductive Reply where
  | error (msg : String)
  | status (msg : String)
  deriving DecidableEq, Repr

/-- The current leader as seen through `raft_get_current_leader_node`:
    its id and the `Node` udata address used for the redirect. -/
structure LeaderNode where
  id : Int
  addr : NodeAddr
  deriving DecidableEq, Repr

/-- Observable outcome of `handleRedisCommand`: the reply sent (if any),
    the entry handed to `raft_recv_entry` (if any), the request as left by
    the handler, and whether the handler released the blocked client
    (freed the thread-safe context and unblocked). -/
structure HandleCmdResult where
  reply : Option Reply
  submitted : Option RaftEntry
  req : RaftReq
  unblocked : Bool
  deriving DecidableEq, Repr

/-- Model of `handleRedisCommand`: no leader replies `-NOLEADER` and
    releases the client; a remote leader replies
    `LEADERIS <host>:<port>` and releases the client; the local leader
    serializes the command, submits a `NORMAL` entry whose `user_data` is
    the request, and — when `raft_recv_entry` succeeds (`recvOk`) — sets
    `RR_PENDING_COMMIT` and returns without replying or releasing;
    a rejected entry is answered with `ERROR` and released. -/
def handleRedisCommand (leader : Option LeaderNode) (selfId : Int)
    (recvOk : Bool) (entryId : Int) (req : RaftReq) : HandleCmdResult :=
  match leader with
  | none => ⟨some (.error "-NOLEADER"), none, req, true⟩
  | some l =>
      if l.id != selfId then
        ⟨some (.error ("LEADERIS " ++ l.addr.host ++ ":" ++
          toString l.addr.port)), none, req, true⟩
      else
        let entry : RaftEntry :=
          ⟨0, entryId, .normal, .bytes (RaftRedisCommandSerialize req.cmd),
            true⟩
        if recvOk then
          ⟨none, some entry, { req with pending_commit := true }, false⟩
        else
          ⟨some (.status "ERROR"), some entry, req, true⟩

/-- C2: `handleRedisCommand` dispatches on the current leader — no leader
    replies the error `-NOLEADER` and releases the request for freeing by
    the worker; a remote leader replies the error `LEADERIS <host>:<port>`
    with the leader's address and releases; when the leader is self and
    `raft_recv_entry` accepts the entry, the handler submits a `NORMAL`
    entry carrying the serialized command with `user_data = req`, sets
    `RR_PENDING_COMMIT`, and neither replies nor releases the request. -/
theorem handleRedisCommand_dispatch (leader : Option LeaderNode)
    (selfId : Int) (recvOk : Bool) (entryId : Int) (req : RaftReq) :
    (leader = none →
      handleRedisCommand leader selfId recvOk entryId req =
        ⟨some (.error "-NOLEADER"), none, req, true⟩) ∧
    (∀ l, leader = some l → l.id ≠ selfId →
      handleRedisCommand leader selfId recvOk entryId req =
        ⟨some (.error ("LEADERIS " ++ l.addr.host ++ ":" ++
          toString l.addr.port)), none, req, true⟩) ∧
    (∀ l, leader = some l → l.id = selfId → recvOk = true →
      handleRedisCommand leader selfId recvOk entryId req =
        ⟨none,
          some ⟨0, entryId, .normal,
            .bytes (RaftRedisCommandSerialize req.cmd), true⟩,
          { req with pending_commit := true }, false⟩) := by
  refine ⟨?_, ?_, ?_⟩
  · rintro rfl; rfl
  · rintro l rfl hne
    simp [handleRedisCommand, bne_iff_ne, hne]
  · rintro l rfl heq rfl
    simp [handleRedisCommand, heq]

/-- Witness for C2: the three dispatch outcomes at concrete leaders, with
    self id 1, remote leader 2 at `h:7`, and the command `["GET", "k"]`. -/
theorem handleRedisCommand_dispatch_witness :
    (handleRedisCommand none 1 true 5 ⟨[[71, 69, 84], [107]], false⟩ =
        ⟨some (.error "-NOLEADER"), none, ⟨[[71, 69, 84], [107]], false⟩,
          true⟩) ∧
      (handleRedisCommand (some ⟨2, ⟨"h", 7⟩⟩) 1 true 5
          ⟨[[71, 69, 84], [107]], false⟩ =
        ⟨some (.error "LEADERIS h:7"), none,
          ⟨[[71, 69, 84], [107]], false⟩, true⟩) ∧
      (handleRedisCommand (some ⟨1, ⟨"h", 7⟩⟩) 1 true 5
          ⟨[[71, 69, 84], [107]], false⟩ =
        ⟨none,
          some ⟨0, 5, .normal,
            .bytes (RaftRedisCommandSerialize [[71, 69, 84], [107]]), true⟩,
          ⟨[[71, 69, 84], [107]], true⟩, false⟩) := by
  refine ⟨(handleRedisCommand_dispatch none 1 true 5
      ⟨[[71, 69, 84], [107]], false⟩).1 rfl, ?_, ?_⟩
  · exact ((handleRedisCommand_dispatch (some ⟨2, ⟨"h", 7⟩⟩) 1 true 5
      ⟨[[71, 69, 84], [107]], false⟩).2.1 ⟨2, ⟨"h", 7⟩⟩ rfl
      (by decide)).trans (by rfl)
  · exact (handleRedisCommand_dispatch (some ⟨1, ⟨"h", 7⟩⟩) 1 true 5
      ⟨[[71, 69, 84], [107]], false⟩).2.2 ⟨1, ⟨"h", 7⟩⟩ rfl rfl rfl

/-! ## Peer reply handlers -/

/-- A reply from a peer as delivered by the async client (`redisReply`).
    The handlers inspect only the type tag, the element count, and integer
    values; the remaining reply types are collapsed into `other`. -/
inductive RedisReply where
  | error (msg : String)
  | integer (i : Int)
  | array (elems : List RedisReply)
  | other

/-- Observable outcome of `requestvote_response_handler`: abort on the
    failed `assert(reply != NULL)`, discard, or deliver a
    `msg_requestvote_response_t` to `raft_recv_requestvote_response`. -/
inductive VoteHandlerOutcome where
  | assertFail
  | discard
  | deliver (term vote_granted : Int)
  deriving DecidableEq, Repr

/-- Observable outcome of `appendentries_response_handler`: discard, or
    deliver a `msg_appendentries_response_t` to
    `raft_recv_appendentries_response` (followed by `raft_apply_all`). -/
inductive AppendHandlerOutcome where
  | discard
  | deliver (term success current_idx first_idx : Int)
  deriving DecidableEq, Repr

/-- Model of `requestvote_response_handler`: `assert(reply != NULL)` aborts
    on a missing reply; an error reply or any shape other than an array of
    exactly two integers is logged and dropped; a well-formed reply is
    converted and delivered. -/
def requestvote_response_handler : Option RedisReply → VoteHandlerOutcome
  | none => .assertFail
  | some (.error _) => .discard
  | some (.array [.integer t, .integer v]) => .deliver t v
  | some _ => .discard

/-- Model of `appendentries_response_handler`: a missing or error reply, or
    any shape other than an array of exactly four integers, is logged and
    dropped; a well-formed reply is converted and delivered. -/
def appendentries_response_handler : Option RedisReply → AppendHandlerOutcome
  | none => .discard
  | some (.error _) => .discard
  | some (.array [.integer t, .integer s, .integer c, .integer f]) =>
      .deliver t s c f
  | some _ => .discard

/-- C8 counterexample: a missing (NULL) requestvote reply is not discarded —
    it hits `assert(reply != NULL)` and aborts, so the claim that every
    missing reply is discarded without disturbing the algorithm is false. -/
theorem requestvote_missing_reply_not_discarded :
    requestvote_response_handler none = VoteHandlerOutcome.assertFail ∧
      requestvote_response_handler none ≠ VoteHandlerOutcome.discard := by
  decide

/-- C8 (amended): the handlers validate the reply's shape — exactly 2
    integers in an array for a requestvote reply, exactly 4 for an
    appendentries reply; error and malformed replies are discarded without
    delivering anything, a missing appendentries reply is likewise
    discarded, while a missing requestvote reply fails an assertion;
    a response is delivered to the algorithm iff the reply is well-formed,
    and then carries exactly the reply's integers. -/
theorem response_handlers_validate_shape (reply : Option RedisReply) :
    (appendentries_response_handler none = AppendHandlerOutcome.discard) ∧
      (requestvote_response_handler none = VoteHandlerOutcome.assertFail) ∧
      (∀ m, requestvote_response_handler (some (.error m)) =
        VoteHandlerOutcome.discard) ∧
      (∀ m, appendentries_response_handler (some (.error m)) =
        AppendHandlerOutcome.discard) ∧
      (∀ t v, requestvote_response_handler reply =
          VoteHandlerOutcome.deliver t v ↔
        reply = some (.array [.integer t, .integer v])) ∧
      (∀ t s c f, appendentries_response_handler reply =
          AppendHandlerOutcome.deliver t s c f ↔
        reply = some (.array [.integer t, .integer s, .integer c,
          .integer f])) := by
  refine ⟨rfl, rfl, fun m => rfl, fun m => rfl, fun t v => ?_, ?_⟩
  · constructor
    · intro h
      unfold requestvote_response_handler at h
      split at h <;> simp_all
    · rintro rfl; rfl
  · intro t s c f
    constructor
    · intro h
      unfold appendentries_response_handler at h
      split at h <;> simp_all
    · rintro rfl; rfl

/-! ## Request queue and worker -/

/-- Model of `RaftReqSubmit`: under the queue mutex, insert the request at
    the tail of `rr->rqueue` (`STAILQ_INSERT_TAIL`), then signal the
    worker. -/
def RaftReqSubmit (rqueue : List RaftReq) (req : RaftReq) : List RaftReq :=
  rqueue ++ [req]

/-- Model of `raft_req_fetch`: under the mutex, remove and return the head
    of the queue, or `none` when it is empty. -/
def raft_req_fetch : List RaftReq → Option RaftReq × List RaftReq
  | [] => (none, [])
  | r :: rest => (some r, rest)

/-- Model of `RaftReqHandleQueue`: fetch requests until the queue is empty;
    each is dispatched to its handler (`g_RaftReqHandlers[req->type]`,
    abstracted as a function that may update the request's flags) and then
    freed unless `RR_PENDING_COMMIT` is set. Returns the dispatched
    requests in dispatch order and the freed requests in free order. -/
def RaftReqHandleQueue (handler : RaftReq → RaftReq) :
    List RaftReq → List RaftReq × List RaftReq
  | [] => ([], [])
  | r :: rest =>
      let r' := handler r
      let out := RaftReqHandleQueue handler rest
      (r' :: out.1, if r'.pending_commit then out.2 else r' :: out.2)

/-- The worker loop is exactly iterated `raft_req_fetch` until the fetch
    returns `none`. -/
theorem RaftReqHandleQueue_fetch_step (handler : RaftReq → RaftReq)
    (q : List RaftReq) :
    RaftReqHandleQueue handler q =
      match raft_req_fetch q with
      | (none, _) => ([], [])
      | (some r, rest) =>
          let r' := handler r
          let out := RaftReqHandleQueue handler rest
          (r' :: out.1, if r'.pending_commit then out.2 else r' :: out.2) :=
  by cases q <;> rfl

theorem foldl_RaftReqSubmit (rs : List RaftReq) (q : List RaftReq) :
    rs.foldl RaftReqSubmit q = q ++ rs := by
  induction rs generalizing q with
  | nil => simp
  | cons r rest ih => simp [List.foldl_cons, RaftReqSubmit, ih]

theorem RaftReqHandleQueue_eq (handler : RaftReq → RaftReq)
    (q : List RaftReq) :
    RaftReqHandleQueue handler q =
      (q.map handler,
        (q.map handler).filter (fun r => !r.pending_commit)) := by
  induction q with
  | nil => rfl
  | cons r rest ih =>
      simp only [RaftReqHandleQueue, ih, List.map_cons, List.filter_cons]
      by_cases h : (handler r).pending_commit <;> simp [h]

/-- C7: the request queue is FIFO — submitting `rs` in order (tail
    insertion starting from an empty queue) and then draining dispatches
    exactly the requests of `rs` in submission order, and the worker frees
    precisely those whose `RR_PENDING_COMMIT` flag is unset after the
    handler ran. -/
theorem request_queue_fifo (handler : RaftReq → RaftReq)
    (rs : List RaftReq) :
    (RaftReqHandleQueue handler (rs.foldl RaftReqSubmit [])).1 =
        rs.map handler ∧
      (RaftReqHandleQueue handler (rs.foldl RaftReqSubmit [])).2 =
        (rs.map handler).filter (fun r => !r.pending_commit) := by
  rw [foldl_RaftReqSubmit, List.nil_append, RaftReqHandleQueue_eq]
  exact ⟨rfl, rfl⟩

/-! ## Startup (`RedisRaftInit`) -/

/-- Externally visible operations `RedisRaftInit` performs, in order, on
    the Raft instance and the log. -/
inductive InitOp where
  | addNodeSelf (voting : Bool)
  | becomeLeader
  | recvEntrySelf
  | createLog
  | openLog
  | loadEntries (result : Int)
  | setCommitIdx (idx : Int)
  | applyAll
  | voteForNodeid (vote : Int)
  | setCurrentTerm (term : Int)
  | setCallbacks
  deriving DecidableEq, Repr

/-- Startup configuration: `{id, init, join}` (the address and log path do
    not influence the control flow modelled here). -/
structure InitConfig where
  id : Int
  init : Bool
  join : Bool
  deriving DecidableEq, Repr

/-- Model of `RedisRaftInit`. Abstract outcomes: `selfAddOk` for
    `raft_add_node`/`raft_add_non_voting_node` of self, `createOk` for
    `RaftLogCreate`, `openOk` for `RaftLogOpen`, `loadResult` for the count
    returned by `RaftLogLoadEntries` (negative on failure), and `hdr` for
    the header of the opened log. Returns success and the ordered trace of
    operations performed. -/
def RedisRaftInit (config : InitConfig) (selfAddOk createOk openOk : Bool)
    (loadResult : Int) (hdr : RaftLogHeader) : Bool × List InitOp :=
  let t0 : List InitOp := [.addNodeSelf config.init]
  if !selfAddOk then (false, t0)
  else if config.init || config.join then
    let t1 := t0 ++ [.becomeLeader, .recvEntrySelf, .createLog]
    if !createOk then (false, t1) else (true, t1 ++ [.setCallbacks])
  else
    let t1 := t0 ++ [.openLog]
    if !openOk then (false, t1)
    else
      let t2 := t1 ++ [.loadEntries loadResult]
      if loadResult < 0 then (false, t2)
      else
        (true, t2 ++ [.setCommitIdx hdr.commit_idx, .applyAll,
          .voteForNodeid hdr.vote, .setCurrentTerm hdr.term,
          .setCallbacks])

/-- C5: on the recover path (neither init nor join), after opening the log
    the core performs, in order: replay of the log entries, setting the
    commit index from the header's `commit_idx`, applying all committed
    entries, then restoring `vote_for` and `current_term` from the header;
    a negative entry count from loading makes initialization fail. -/
theorem redisRaftInit_recover (config : InitConfig)
    (createOk : Bool) (loadResult : Int) (hdr : RaftLogHeader)
    (hinit : config.init = false) (hjoin : config.join = false) :
    (0 ≤ loadResult →
      RedisRaftInit config true createOk true loadResult hdr =
        (true, [.addNodeSelf false, .openLog, .loadEntries loadResult,
          .setCommitIdx hdr.commit_idx, .applyAll,
          .voteForNodeid hdr.vote, .setCurrentTerm hdr.term,
          .setCallbacks])) ∧
    (loadResult < 0 →
      RedisRaftInit config true createOk true loadResult hdr =
        (false, [.addNodeSelf false, .openLog,
          .loadEntries loadResult])) := by
  constructor
  · intro hpos
    simp [RedisRaftInit, hinit, hjoin, not_lt.mpr hpos]
  · intro hneg
    simp [RedisRaftInit, hinit, hjoin, hneg]

/-- Witness for C5 at a concrete recovered header
    `{term := 3, vote := 2, commit_idx := 4}`, with 5 loaded entries in the
    success case and a load failure (-1) in the failure case. -/
theorem redisRaftInit_recover_witness :
    (RedisRaftInit ⟨1, false, false⟩ true true true 5 ⟨3, 2, 4⟩ =
        (true, [.addNodeSelf false, .openLog, .loadEntries 5,
          .setCommitIdx 4, .applyAll, .voteForNodeid 2,
          .setCurrentTerm 3, .setCallbacks])) ∧
      (RedisRaftInit ⟨1, false, false⟩ true true true (-1) ⟨3, 2, 4⟩ =
        (false, [.addNodeSelf false, .openLog, .loadEntries (-1)])) :=
  ⟨(redisRaftInit_recover ⟨1, false, false⟩ true 5 ⟨3, 2, 4⟩ rfl rfl).1
      (by decide),
    (redisRaftInit_recover ⟨1, false, false⟩ true (-1) ⟨3, 2, 4⟩ rfl rfl).2
      (by decide)⟩

end RedisRaft
